import Mathlib

/-
Shallow embedding of the GDI+ C bridge of bread-graphics/gui-tools
(src/external/win32_gdiplus/cgdiplus.cc together with its header
cgdiplus.h), and proofs about its error-reporting and forwarding
behaviour.

Modelling conventions:
- the one piece of mutable process state, the variable size_t current_error,
  becomes an explicit BridgeState record threaded through every operation;
- results of calls into the native GDI+ library (a startup status, a thrown
  allocation exception, the discarded status of a drawing call) are inputs
  of the model, since the native library is outside this repository;
- each C entry point that dereferences a caller-supplied output pointer
  takes that pointer as an Option Unit (none is the null pointer) and
  returns a CResult, whose undef constructor marks the undefined behaviour
  of a null dereference and whose thrown constructor marks a C++ exception
  escaping across the extern C boundary;
- the native drawing calls are stubbed by capture records holding exactly
  the arguments the bridge forwards, so that forwarding claims (such as the
  arc sweep-angle conversion) are statements about those records;
- machine integers carry no arithmetic in this file beyond the float
  subtraction end_angle - start_angle, which is embedded generically over
  any type with a Sub instance, the float instance included: the bridge
  only forwards values, so C int becomes Int and C unsigned becomes Nat.
-/

namespace CGdiplus

/-- Record GDIPColor from cgdiplus.h: four 8-bit colour channels. -/
structure GDIPColor where
  r : Nat
  g : Nat
  b : Nat
  a : Nat
deriving DecidableEq

/-- Validity of a GDIPColor: each channel fits in 8 bits (uint8_t). -/
def GDIPColor.valid (c : GDIPColor) : Prop :=
  c.r < 256 ∧ c.g < 256 ∧ c.b < 256 ∧ c.a < 256

instance (c : GDIPColor) : Decidable c.valid := by
  unfold GDIPColor.valid; infer_instance

/-- Record of the four arguments the helper cvt_clr passes, in order, to the
    native Gdiplus Color constructor. -/
structure NativeColor where
  arg1 : Nat
  arg2 : Nat
  arg3 : Nat
  arg4 : Nat
deriving DecidableEq

/-- Helper cvt_clr from cgdiplus.cc: builds the native colour from the
    channels of the C colour, passing clr.r, clr.g, clr.b, clr.a in that
    order. -/
def cvt_clr (clr : GDIPColor) : NativeColor :=
  ⟨clr.r, clr.g, clr.b, clr.a⟩

/-- Static table error_list from cgdiplus.cc, in declaration order:
    index 0 is the exception message, index 1 the non-OK-status message,
    index 2 the null-startup-token message. -/
def error_list : List String :=
  ["GDI+ threw an exception",
   "GDI+ function returned non-OK status",
   "startup_token pointer is null"]

/-- Value of SIZE_MAX on the 64-bit target, the initializer of
    current_error. -/
def SIZE_MAX : Nat := 2 ^ 64 - 1

/-- Process-wide mutable state of the bridge: the single variable
    size_t current_error. -/
structure BridgeState where
  current_error : Nat
deriving DecidableEq

/-- State at program start: current_error = SIZE_MAX. -/
def initState : BridgeState := ⟨SIZE_MAX⟩

/-- Numeric value of the native status Gdiplus Status Ok. -/
def StatusOk : Nat := 0

/-- Function err_pointer from cgdiplus.cc: returns
    error_list[current_error]. Reading outside the three-element table
    (in particular at the initial index SIZE_MAX) is an out-of-bounds
    access with no defined value, modelled by none. -/
def err_pointer (s : BridgeState) : Option String :=
  error_list.get? s.current_error

/-- Function initialize_gdiplus from cgdiplus.cc. The startup_token output
    pointer is forwarded, never tested for null, to the native GdiplusStartup
    call, whose returned status is the model input startupStatus. When that
    status differs from Ok, the STATUS_OUT macro sets current_error to 1 and
    the function returns 0; otherwise it returns 1 and leaves the error slot
    untouched. -/
def initialize_gdiplus (startup_token : Option Unit) (startupStatus : Nat)
    (s : BridgeState) : Int × BridgeState :=
  if startupStatus ≠ StatusOk then (0, { current_error := 1 })
  else (1, s)

/-- Function done_gdiplus from cgdiplus.cc: forwards the token to
    GdiplusShutdown and changes no bridge state. -/
def done_gdiplus (startup_token : Nat) (s : BridgeState) : BridgeState := s

/-- Outcome of one call to a C entry point of the bridge: a normal return
    carrying a value, a C++ exception escaping across the extern C boundary
    (the bridge installs no handler), or undefined behaviour reached (the
    bridge dereferences a null caller-supplied pointer). -/
inductive CResult (α : Type) where
  | ret : α → CResult α
  | thrown : CResult α
  | undef : CResult α
deriving DecidableEq

/-- Value stored through the output pointer by from_hdc: the native graphics
    object built from the device context. -/
structure GDIPGraphics where
  hdc : Nat
deriving DecidableEq

/-- Function from_hdc from cgdiplus.cc: constructs Gdiplus Graphics(hDC),
    stores it through the graphics output pointer and returns 1. There is no
    status check against the native library and no write to the error slot;
    the store through a null pointer is undefined. -/
def from_hdc (hDC : Nat) (graphics : Option Unit) (s : BridgeState) :
    CResult (GDIPGraphics × Int × BridgeState) :=
  match graphics with
  | none => .undef
  | some _ => .ret (⟨hDC⟩, 1, s)

/-- Function done_graphics from cgdiplus.cc: lets the object drop; no bridge
    state change. -/
def done_graphics (graphics : GDIPGraphics) (s : BridgeState) : BridgeState := s

/-- Value stored through the output pointer by create_pen: the native pen
    built from the converted colour and the width. -/
structure GDIPPen where
  color : NativeColor
  width : Nat
deriving DecidableEq

/-- Function create_pen from cgdiplus.cc: constructs the native
    Pen(cvt_clr(color), width) and stores it through the pen output pointer,
    returning 1. The model input nativeThrows says whether the native
    allocation raises a C++ exception; the function installs no handler, so
    a raised exception escapes the extern C boundary. The pen pointer is
    dereferenced unconditionally, so a null pen pointer is undefined
    behaviour. No path writes the error slot. -/
def create_pen (color : GDIPColor) (width : Nat) (pen : Option Unit)
    (nativeThrows : Bool) (s : BridgeState) :
    CResult (GDIPPen × Int × BridgeState) :=
  if nativeThrows then .thrown
  else
    match pen with
    | none => .undef
    | some _ => .ret (⟨cvt_clr color, width⟩, 1, s)

/-- Function done_pen from cgdiplus.cc: lets the pen drop; no bridge state
    change. -/
def done_pen (pen : GDIPPen) (s : BridgeState) : BridgeState := s

/-- Value stored through the output pointer by create_brush: the native
    brush built from the converted colour. -/
structure GDIPBrush where
  color : NativeColor
deriving DecidableEq

/-- Function create_brush from cgdiplus.cc: constructs the native
    Brush(cvt_clr(color)) and stores it through the brush output pointer,
    returning 1; same exception and null-pointer behaviour as create_pen. -/
def create_brush (color : GDIPColor) (brush : Option Unit)
    (nativeThrows : Bool) (s : BridgeState) :
    CResult (GDIPBrush × Int × BridgeState) :=
  if nativeThrows then .thrown
  else
    match brush with
    | none => .undef
    | some _ => .ret (⟨cvt_clr color⟩, 1, s)

/-- Function done_brush from cgdiplus.cc: lets the brush drop; no bridge
    state change. -/
def done_brush (brush : GDIPBrush) (s : BridgeState) : BridgeState := s

/-- Arguments the bridge forwards to the native DrawLine call. -/
structure DrawLineCall where
  graphics : GDIPGraphics
  pen : GDIPPen
  x1 : Int
  y1 : Int
  x2 : Int
  y2 : Int
deriving DecidableEq

/-- Function draw_line from cgdiplus.cc: forwards its arguments unchanged to
    the native DrawLine, discards the native status (the model input
    nativeStatus) and returns 1. -/
def draw_line (graphics : GDIPGraphics) (pen : GDIPPen) (x1 y1 x2 y2 : Int)
    (nativeStatus : Nat) (s : BridgeState) :
    DrawLineCall × Int × BridgeState :=
  (⟨graphics, pen, x1, y1, x2, y2⟩, 1, s)

/-- Arguments the bridge forwards to the native DrawRectangle call. -/
structure DrawRectangleCall where
  graphics : GDIPGraphics
  pen : GDIPPen
  x : Int
  y : Int
  width : Nat
  height : Nat
deriving DecidableEq

/-- Function draw_rectangle from cgdiplus.cc: forwards its arguments
    unchanged to the native DrawRectangle, discards the native status and
    returns 1. -/
def draw_rectangle (graphics : GDIPGraphics) (pen : GDIPPen) (x y : Int)
    (width height : Nat) (nativeStatus : Nat) (s : BridgeState) :
    DrawRectangleCall × Int × BridgeState :=
  (⟨graphics, pen, x, y, width, height⟩, 1, s)

/-- Arguments the bridge forwards to the native DrawArc call; the angle type
    is any type with a subtraction, the C float included. -/
structure DrawArcCall (α : Type) where
  graphics : GDIPGraphics
  pen : GDIPPen
  rectleft : Int
  recttop : Int
  rectwidth : Nat
  rectheight : Nat
  start_angle : α
  sweep_angle : α
deriving DecidableEq

/-- Function draw_arc from cgdiplus.cc: forwards the pen and bounding
    rectangle unchanged and passes start_angle together with the sweep
    end_angle - start_angle to the native DrawArc, discarding the native
    status and returning 1. -/
def draw_arc {α : Type} [Sub α] (graphics : GDIPGraphics) (pen : GDIPPen)
    (rectleft recttop : Int) (rectwidth rectheight : Nat)
    (start_angle end_angle : α) (nativeStatus : Nat) (s : BridgeState) :
    DrawArcCall α × Int × BridgeState :=
  (⟨graphics, pen, rectleft, recttop, rectwidth, rectheight,
    start_angle, end_angle - start_angle⟩, 1, s)

/-- Arguments the bridge forwards to the native DrawEllipse call. -/
structure DrawEllipseCall where
  graphics : GDIPGraphics
  pen : GDIPPen
  rectleft : Int
  recttop : Int
  rectwidth : Nat
  rectheight : Nat
deriving DecidableEq

/-- Function draw_ellipse from cgdiplus.cc: forwards its arguments unchanged
    to the native DrawEllipse, discards the native status and returns 1. -/
def draw_ellipse (graphics : GDIPGraphics) (pen : GDIPPen)
    (rectleft recttop : Int) (rectwidth rectheight : Nat)
    (nativeStatus : Nat) (s : BridgeState) :
    DrawEllipseCall × Int × BridgeState :=
  (⟨graphics, pen, rectleft, recttop, rectwidth, rectheight⟩, 1, s)

/-- Arguments the bridge forwards to the native FillRectangle call. -/
structure FillRectangleCall where
  graphics : GDIPGraphics
  brush : GDIPBrush
  rectleft : Int
  recttop : Int
  rectwidth : Nat
  rectheight : Nat
deriving DecidableEq

/-- Function fill_rectangle from cgdiplus.cc: forwards its arguments
    unchanged to the native FillRectangle, discards the native status and
    returns 1. -/
def fill_rectangle (graphics : GDIPGraphics) (brush : GDIPBrush)
    (rectleft recttop : Int) (rectwidth rectheight : Nat)
    (nativeStatus : Nat) (s : BridgeState) :
    FillRectangleCall × Int × BridgeState :=
  (⟨graphics, brush, rectleft, recttop, rectwidth, rectheight⟩, 1, s)

/-- Arguments the bridge forwards to the native FillPie call; the angle type
    is any type with a subtraction, the C float included. -/
structure FillArcCall (α : Type) where
  graphics : GDIPGraphics
  brush : GDIPBrush
  rectleft : Int
  recttop : Int
  rectwidth : Nat
  rectheight : Nat
  start_angle : α
  sweep_angle : α
deriving DecidableEq

/-- Function fill_arc from cgdiplus.cc: forwards the brush and bounding
    rectangle unchanged and passes start_angle together with the sweep
    end_angle - start_angle to the native FillPie, discarding the native
    status and returning 1. -/
def fill_arc {α : Type} [Sub α] (graphics : GDIPGraphics) (brush : GDIPBrush)
    (rectleft recttop : Int) (rectwidth rectheight : Nat)
    (start_angle end_angle : α) (nativeStatus : Nat) (s : BridgeState) :
    FillArcCall α × Int × BridgeState :=
  (⟨graphics, brush, rectleft, recttop, rectwidth, rectheight,
    start_angle, end_angle - start_angle⟩, 1, s)

/-- Arguments the bridge forwards to the native FillEllipse call. -/
structure FillEllipseCall where
  graphics : GDIPGraphics
  brush : GDIPBrush
  rectleft : Int
  recttop : Int
  rectwidth : Nat
  rectheight : Nat
deriving DecidableEq

/-- Function fill_ellipse from cgdiplus.cc: forwards its arguments unchanged
    to the native FillEllipse, discards the native status and returns 1. -/
def fill_ellipse (graphics : GDIPGraphics) (brush : GDIPBrush)
    (rectleft recttop : Int) (rectwidth rectheight : Nat)
    (nativeStatus : Nat) (s : BridgeState) :
    FillEllipseCall × Int × BridgeState :=
  (⟨graphics, brush, rectleft, recttop, rectwidth, rectheight⟩, 1, s)

/-- One invocation of a bridge entry point, with its caller-supplied
    arguments and with the native library's behaviour on that call recorded
    as oracle fields (the startup status, whether an allocation throws, the
    discarded status of a drawing call). Arc angles are taken at the Int
    instance of the generic angle type, which is irrelevant to the state. -/
inductive Op where
  | opInitialize (startup_token : Option Unit) (startupStatus : Nat)
  | opDoneGdiplus (startup_token : Nat)
  | opFromHdc (hDC : Nat) (graphics : Option Unit)
  | opDoneGraphics (graphics : GDIPGraphics)
  | opCreatePen (color : GDIPColor) (width : Nat) (pen : Option Unit)
      (nativeThrows : Bool)
  | opDonePen (pen : GDIPPen)
  | opCreateBrush (color : GDIPColor) (brush : Option Unit)
      (nativeThrows : Bool)
  | opDoneBrush (brush : GDIPBrush)
  | opDrawLine (graphics : GDIPGraphics) (pen : GDIPPen) (x1 y1 x2 y2 : Int)
      (nativeStatus : Nat)
  | opDrawRectangle (graphics : GDIPGraphics) (pen : GDIPPen) (x y : Int)
      (width height : Nat) (nativeStatus : Nat)
  | opDrawArc (graphics : GDIPGraphics) (pen : GDIPPen)
      (rectleft recttop : Int) (rectwidth rectheight : Nat)
      (start_angle end_angle : Int) (nativeStatus : Nat)
  | opDrawEllipse (graphics : GDIPGraphics) (pen : GDIPPen)
      (rectleft recttop : Int) (rectwidth rectheight : Nat)
      (nativeStatus : Nat)
  | opFillRectangle (graphics : GDIPGraphics) (brush : GDIPBrush)
      (rectleft recttop : Int) (rectwidth rectheight : Nat)
      (nativeStatus : Nat)
  | opFillArc (graphics : GDIPGraphics) (brush : GDIPBrush)
      (rectleft recttop : Int) (rectwidth rectheight : Nat)
      (start_angle end_angle : Int) (nativeStatus : Nat)
  | opFillEllipse (graphics : GDIPGraphics) (brush : GDIPBrush)
      (rectleft recttop : Int) (rectwidth rectheight : Nat)
      (nativeStatus : Nat)
  | opErrPointer

/-- Effect of one invocation on the bridge state: none when the execution
    does not return normally (an escaped exception or undefined behaviour,
    including the out-of-bounds read of err_pointer before any failure);
    otherwise the int result of the entry point (none for the void ones and
    for err_pointer) and the state after the call. -/
def Op.run : Op → BridgeState → Option (Option Int × BridgeState)
  | .opInitialize tok st, s =>
      some (some (initialize_gdiplus tok st s).1, (initialize_gdiplus tok st s).2)
  | .opDoneGdiplus tok, s => some (none, done_gdiplus tok s)
  | .opFromHdc h g, s =>
      match from_hdc h g s with
      | .ret (_, r, s') => some (some r, s')
      | _ => none
  | .opDoneGraphics g, s => some (none, done_graphics g s)
  | .opCreatePen c w p thr, s =>
      match create_pen c w p thr s with
      | .ret (_, r, s') => some (some r, s')
      | _ => none
  | .opDonePen p, s => some (none, done_pen p s)
  | .opCreateBrush c b thr, s =>
      match create_brush c b thr s with
      | .ret (_, r, s') => some (some r, s')
      | _ => none
  | .opDoneBrush b, s => some (none, done_brush b s)
  | .opDrawLine g p x1 y1 x2 y2 st, s =>
      some (some (draw_line g p x1 y1 x2 y2 st s).2.1,
            (draw_line g p x1 y1 x2 y2 st s).2.2)
  | .opDrawRectangle g p x y w h st, s =>
      some (some (draw_rectangle g p x y w h st s).2.1,
            (draw_rectangle g p x y w h st s).2.2)
  | .opDrawArc g p l t w h sa ea st, s =>
      some (some (draw_arc g p l t w h sa ea st s).2.1,
            (draw_arc g p l t w h sa ea st s).2.2)
  | .opDrawEllipse g p l t w h st, s =>
      some (some (draw_ellipse g p l t w h st s).2.1,
            (draw_ellipse g p l t w h st s).2.2)
  | .opFillRectangle g b l t w h st, s =>
      some (some (fill_rectangle g b l t w h st s).2.1,
            (fill_rectangle g b l t w h st s).2.2)
  | .opFillArc g b l t w h sa ea st, s =>
      some (some (fill_arc g b l t w h sa ea st s).2.1,
            (fill_arc g b l t w h sa ea st s).2.2)
  | .opFillEllipse g b l t w h st, s =>
      some (some (fill_ellipse g b l t w h st s).2.1,
            (fill_ellipse g b l t w h st s).2.2)
  | .opErrPointer, s => (err_pointer s).map (fun _ => (none, s))

/-- Defined execution of a sequence of bridge invocations from a state:
    none as soon as one invocation fails to return normally. -/
def runOps : List Op → BridgeState → Option BridgeState
  | [], s => some s
  | op :: ops, s =>
      match op.run s with
      | some (_, s') => runOps ops s'
      | none => none

/-- Helper: every invocation that returns normally either leaves the whole
    bridge state unchanged and does not return 0, or is the failing
    initialization path, which returns 0 with current_error set to 1. -/
theorem run_step_cases (op : Op) (s : BridgeState) (r : Option Int)
    (s' : BridgeState) (h : op.run s = some (r, s')) :
    (s' = s ∧ r ≠ some 0) ∨ (r = some 0 ∧ s' = ⟨1⟩) := by
  cases op with
  | opInitialize tok st =>
    by_cases hst : st = StatusOk
    · simp [Op.run, initialize_gdiplus, hst] at h
      obtain ⟨h1, h2⟩ := h
      subst h1; subst h2
      exact Or.inl ⟨rfl, by decide⟩
    · simp [Op.run, initialize_gdiplus, hst] at h
      obtain ⟨h1, h2⟩ := h
      subst h1; subst h2
      exact Or.inr ⟨rfl, rfl⟩
  | opDoneGdiplus tok =>
    simp [Op.run, done_gdiplus] at h
    obtain ⟨h1, h2⟩ := h
    subst h1; subst h2
    exact Or.inl ⟨rfl, by decide⟩
  | opFromHdc hd g =>
    cases g with
    | none => simp [Op.run, from_hdc] at h
    | some u =>
      simp [Op.run, from_hdc] at h
      obtain ⟨h1, h2⟩ := h
      subst h1; subst h2
      exact Or.inl ⟨rfl, by decide⟩
  | opDoneGraphics g =>
    simp [Op.run, done_graphics] at h
    obtain ⟨h1, h2⟩ := h
    subst h1; subst h2
    exact Or.inl ⟨rfl, by decide⟩
  | opCreatePen c w p thr =>
    cases thr with
    | true => simp [Op.run, create_pen] at h
    | false =>
      cases p with
      | none => simp [Op.run, create_pen] at h
      | some u =>
        simp [Op.run, create_pen] at h
        obtain ⟨h1, h2⟩ := h
        subst h1; subst h2
        exact Or.inl ⟨rfl, by decide⟩
  | opDonePen p =>
    simp [Op.run, done_pen] at h
    obtain ⟨h1, h2⟩ := h
    subst h1; subst h2
    exact Or.inl ⟨rfl, by decide⟩
  | opCreateBrush c b thr =>
    cases thr with
    | true => simp [Op.run, create_brush] at h
    | false =>
      cases b with
      | none => simp [Op.run, create_brush] at h
      | some u =>
        simp [Op.run, create_brush] at h
        obtain ⟨h1, h2⟩ := h
        subst h1; subst h2
        exact Or.inl ⟨rfl, by decide⟩
  | opDoneBrush b =>
    simp [Op.run, done_brush] at h
    obtain ⟨h1, h2⟩ := h
    subst h1; subst h2
    exact Or.inl ⟨rfl, by decide⟩
  | opDrawLine g p x1 y1 x2 y2 st =>
    simp [Op.run, draw_line] at h
    obtain ⟨h1, h2⟩ := h
    subst h1; subst h2
    exact Or.inl ⟨rfl, by decide⟩
  | opDrawRectangle g p x y w hh st =>
    simp [Op.run, draw_rectangle] at h
    obtain ⟨h1, h2⟩ := h
    subst h1; subst h2
    exact Or.inl ⟨rfl, by decide⟩
  | opDrawArc g p l t w hh sa ea st =>
    simp [Op.run, draw_arc] at h
    obtain ⟨h1, h2⟩ := h
    subst h1; subst h2
    exact Or.inl ⟨rfl, by decide⟩
  | opDrawEllipse g p l t w hh st =>
    simp [Op.run, draw_ellipse] at h
    obtain ⟨h1, h2⟩ := h
    subst h1; subst h2
    exact Or.inl ⟨rfl, by decide⟩
  | opFillRectangle g b l t w hh st =>
    simp [Op.run, fill_rectangle] at h
    obtain ⟨h1, h2⟩ := h
    subst h1; subst h2
    exact Or.inl ⟨rfl, by decide⟩
  | opFillArc g b l t w hh sa ea st =>
    simp [Op.run, fill_arc] at h
    obtain ⟨h1, h2⟩ := h
    subst h1; subst h2
    exact Or.inl ⟨rfl, by decide⟩
  | opFillEllipse g b l t w hh st =>
    simp [Op.run, fill_ellipse] at h
    obtain ⟨h1, h2⟩ := h
    subst h1; subst h2
    exact Or.inl ⟨rfl, by decide⟩
  | opErrPointer =>
    cases he : err_pointer s with
    | none => simp [Op.run, he] at h
    | some v =>
      simp [Op.run, he] at h
      obtain ⟨h1, h2⟩ := h
      subst h1; subst h2
      exact Or.inl ⟨rfl, by decide⟩

/-- Helper: along any defined execution, the error slot ends either at its
    starting value or at 1. -/
theorem runOps_error (ops : List Op) (s s' : BridgeState)
    (h : runOps ops s = some s') :
    s'.current_error = s.current_error ∨ s'.current_error = 1 := by
  induction ops generalizing s with
  | nil =>
    simp [runOps] at h
    subst h
    exact Or.inl rfl
  | cons op ops ih =>
    simp only [runOps] at h
    cases hr : op.run s with
    | none => rw [hr] at h; cases h
    | some rs =>
      obtain ⟨r, s1⟩ := rs
      rw [hr] at h
      rcases run_step_cases op s r s1 hr with ⟨rfl, _⟩ | ⟨_, rfl⟩
      · exact ih s1 h
      · rcases ih _ h with h1 | h1
        · exact Or.inr h1
        · exact Or.inr h1

/-- Helper: reading the error table at the initial index SIZE_MAX is out of
    bounds. -/
theorem err_pointer_init : err_pointer initState = none := by
  rw [err_pointer, List.get?_eq_none]
  decide

/-- Claim C1: the claim says that every creation operation given a null
    output-handle pointer returns 0 and records the null-pointer error kind,
    index 2. The code contains no such path: initialize_gdiplus leaves the
    error slot at its old value or at 1 and never at 2, its result ignores
    the token pointer entirely (it is forwarded, never tested), and
    create_pen and create_brush with a null output pointer dereference it
    unconditionally, reaching undefined behaviour rather than any error
    return. -/
theorem null_output_pointer_not_handled :
    (∀ tok st s, (initialize_gdiplus tok st s).2.current_error = s.current_error ∨
      (initialize_gdiplus tok st s).2.current_error = 1) ∧
    (∀ tok st s, initialize_gdiplus none st s = initialize_gdiplus tok st s) ∧
    (∀ c w s, create_pen c w none false s = CResult.undef) ∧
    (∀ c s, create_brush c none false s = CResult.undef) := by
  refine ⟨?_, ?_, ?_, ?_⟩
  · intro tok st s
    by_cases hst : st = StatusOk <;> simp [initialize_gdiplus, hst]
  · intro tok st s; rfl
  · intro c w s; rfl
  · intro c s; rfl

/-- Claim C2: for all start angles sa and end angles ea, including ea < sa,
    draw_arc and fill_arc forward to the native arc and pie calls the pen or
    brush and the bounding rectangle unchanged, the start angle unchanged,
    and a sweep angle exactly equal to ea - sa. -/
theorem arc_sweep_is_end_minus_start {α : Type} [Sub α] (g : GDIPGraphics)
    (p : GDIPPen) (b : GDIPBrush) (rectleft recttop : Int)
    (rectwidth rectheight : Nat) (sa ea : α) (st : Nat) (s : BridgeState) :
    draw_arc g p rectleft recttop rectwidth rectheight sa ea st s =
      (⟨g, p, rectleft, recttop, rectwidth, rectheight, sa, ea - sa⟩, 1, s) ∧
    fill_arc g b rectleft recttop rectwidth rectheight sa ea st s =
      (⟨g, b, rectleft, recttop, rectwidth, rectheight, sa, ea - sa⟩, 1, s) :=
  ⟨rfl, rfl⟩

/-- Witness for claim C2, at the Int instance with a start angle 90 above
    the end angle 30: the forwarded sweep is the negative value -60. -/
theorem arc_sweep_is_end_minus_start_witness :
    draw_arc (α := Int) ⟨0⟩ ⟨⟨0, 0, 0, 0⟩, 1⟩ 1 2 3 4 90 30 0 initState =
      (⟨⟨0⟩, ⟨⟨0, 0, 0, 0⟩, 1⟩, 1, 2, 3, 4, 90, -60⟩, 1, initState) ∧
    fill_arc (α := Int) ⟨0⟩ ⟨⟨0, 0, 0, 0⟩⟩ 1 2 3 4 90 30 0 initState =
      (⟨⟨0⟩, ⟨⟨0, 0, 0, 0⟩⟩, 1, 2, 3, 4, 90, -60⟩, 1, initState) := by
  have h := arc_sweep_is_end_minus_start (α := Int) ⟨0⟩ ⟨⟨0, 0, 0, 0⟩, 1⟩
    ⟨⟨0, 0, 0, 0⟩⟩ 1 2 3 4 90 30 0 initState
  refine ⟨?_, ?_⟩
  · rw [h.1]; decide
  · rw [h.2]; decide

/-- Claim C3: initialize_gdiplus returns 0 and sets the error slot to the
    non-OK-status kind, index 1, exactly when the native startup routine
    reports a status other than Ok; on an Ok status it returns 1 and leaves
    the state unchanged. -/
theorem initialize_gdiplus_status_contract (tok : Option Unit) (st : Nat)
    (s : BridgeState) :
    (st ≠ StatusOk → initialize_gdiplus tok st s = (0, ⟨1⟩)) ∧
    (st = StatusOk → initialize_gdiplus tok st s = (1, s)) := by
  constructor
  · intro hst; simp [initialize_gdiplus, hst]
  · intro hst; simp [initialize_gdiplus, hst]

/-- Witness for claim C3: a failing startup with status 7 and a successful
    startup with status 0, both from the initial state. -/
theorem initialize_gdiplus_status_contract_witness :
    initialize_gdiplus (some ()) 7 initState = (0, ⟨1⟩) ∧
    initialize_gdiplus (some ()) 0 initState = (1, initState) :=
  ⟨(initialize_gdiplus_status_contract (some ()) 7 initState).1 (by decide),
   (initialize_gdiplus_status_contract (some ()) 0 initState).2 rfl⟩

/-- Claim C4: the claim says that when the native allocation raises an
    exception, create_pen and create_brush return 0 and record the
    exception error kind, index 0, with no exception crossing the C
    boundary. The code installs no handler, so on any input where the
    native allocation raises, the exception escapes the extern C boundary
    instead of producing any return value or error-slot write. -/
theorem native_exception_not_caught (c : GDIPColor) (w : Nat)
    (pen brush : Option Unit) (s : BridgeState) :
    create_pen c w pen true s = CResult.thrown ∧
    create_brush c brush true s = CResult.thrown :=
  ⟨rfl, rfl⟩

/-- Claim C5: only failing invocations write the process-wide error slot:
    an invocation that does not return 0 leaves the whole state unchanged,
    and after one that returns 0 the slot holds the failure kind index 1
    and err_pointer yields that kind's message, until the next failure
    overwrites it. -/
theorem error_slot_written_only_on_failure (op : Op) (s : BridgeState)
    (r : Option Int) (s' : BridgeState) (h : op.run s = some (r, s')) :
    (r ≠ some 0 → s' = s) ∧
    (r = some 0 → s'.current_error = 1 ∧
      err_pointer s' = some "GDI+ function returned non-OK status") := by
  rcases run_step_cases op s r s' h with ⟨rfl, hr⟩ | ⟨hr, rfl⟩
  · exact ⟨fun _ => rfl, fun h0 => absurd h0 hr⟩
  · exact ⟨fun hne => absurd hr hne, fun _ => ⟨rfl, rfl⟩⟩

/-- Witness for claim C5: a failing initialization from the initial state
    leaves the slot at 1 with the matching message. -/
theorem error_slot_written_only_on_failure_witness :
    BridgeState.current_error ⟨1⟩ = 1 ∧
    err_pointer ⟨1⟩ = some "GDI+ function returned non-OK status" :=
  (error_slot_written_only_on_failure (Op.opInitialize (some ()) 7) initState
    (some 0) ⟨1⟩ (by decide)).2 rfl

/-- Claim C6: from_hdc with any device context and a non-null output
    location returns 1, stores the graphics object built from the device
    context, and leaves the state untouched; its definition contains no
    status check against the native library and no error-slot write. -/
theorem from_hdc_always_succeeds (hDC : Nat) (s : BridgeState) :
    from_hdc hDC (some ()) s = CResult.ret (⟨hDC⟩, 1, s) := rfl

/-- Witness for claim C6 at the device context 42 and the initial state. -/
theorem from_hdc_always_succeeds_witness :
    from_hdc 42 (some ()) initState = CResult.ret (⟨42⟩, 1, initState) :=
  from_hdc_always_succeeds 42 initState

/-- Claim C7: for every valid colour and every width, create_pen with a
    non-null output pointer and a non-throwing native allocation returns 1
    with the state unchanged, and done_pen on the produced pen changes
    nothing, so the pair leaves the error slot exactly as it was. -/
theorem create_pen_release_roundtrip (color : GDIPColor) (width : Nat)
    (s : BridgeState) (hc : color.valid) :
    create_pen color width (some ()) false s =
      CResult.ret (⟨cvt_clr color, width⟩, 1, s) ∧
    done_pen ⟨cvt_clr color, width⟩ s = s :=
  ⟨rfl, rfl⟩

/-- Witness for claim C7 at the opaque red colour and width 2. -/
theorem create_pen_release_roundtrip_witness :
    create_pen ⟨255, 0, 0, 255⟩ 2 (some ()) false initState =
      CResult.ret (⟨⟨255, 0, 0, 255⟩, 2⟩, 1, initState) ∧
    done_pen ⟨⟨255, 0, 0, 255⟩, 2⟩ initState = initState :=
  create_pen_release_roundtrip ⟨255, 0, 0, 255⟩ 2 initState (by decide)

/-- Claim C8: each of the seven drawing operations returns 1 and leaves the
    bridge state untouched, for every argument list and whatever status the
    forwarded native call reports. -/
theorem drawing_ops_always_return_one {α : Type} [Sub α] (g : GDIPGraphics)
    (p : GDIPPen) (b : GDIPBrush) (x1 y1 x2 y2 l t : Int) (w hh : Nat)
    (sa ea : α) (st : Nat) (s : BridgeState) :
    (draw_line g p x1 y1 x2 y2 st s).2 = (1, s) ∧
    (draw_rectangle g p x1 y1 w hh st s).2 = (1, s) ∧
    (draw_arc g p l t w hh sa ea st s).2 = (1, s) ∧
    (draw_ellipse g p l t w hh st s).2 = (1, s) ∧
    (fill_rectangle g b l t w hh st s).2 = (1, s) ∧
    (fill_arc g b l t w hh sa ea st s).2 = (1, s) ∧
    (fill_ellipse g b l t w hh st s).2 = (1, s) :=
  ⟨rfl, rfl, rfl, rfl, rfl, rfl, rfl⟩

/-- Witness for claim C8 at concrete arguments, with a native status 9
    standing for a failed native drawing call that the bridge ignores. -/
theorem drawing_ops_always_return_one_witness :
    (draw_line ⟨0⟩ ⟨⟨0, 0, 0, 0⟩, 1⟩ 1 2 3 4 9 initState).2 = (1, initState) ∧
    (draw_rectangle ⟨0⟩ ⟨⟨0, 0, 0, 0⟩, 1⟩ 1 2 5 6 9 initState).2 = (1, initState) ∧
    (draw_arc (α := Int) ⟨0⟩ ⟨⟨0, 0, 0, 0⟩, 1⟩ 7 8 5 6 90 30 9 initState).2 = (1, initState) ∧
    (draw_ellipse ⟨0⟩ ⟨⟨0, 0, 0, 0⟩, 1⟩ 7 8 5 6 9 initState).2 = (1, initState) ∧
    (fill_rectangle ⟨0⟩ ⟨⟨0, 0, 0, 0⟩⟩ 7 8 5 6 9 initState).2 = (1, initState) ∧
    (fill_arc (α := Int) ⟨0⟩ ⟨⟨0, 0, 0, 0⟩⟩ 7 8 5 6 90 30 9 initState).2 = (1, initState) ∧
    (fill_ellipse ⟨0⟩ ⟨⟨0, 0, 0, 0⟩⟩ 7 8 5 6 9 initState).2 = (1, initState) :=
  drawing_ops_always_return_one (α := Int) ⟨0⟩ ⟨⟨0, 0, 0, 0⟩, 1⟩ ⟨⟨0, 0, 0, 0⟩⟩
    1 2 3 4 7 8 5 6 90 30 9 initState

/-- Claim C9: the index err_pointer reads into the three-element error
    table starts at SIZE_MAX, so before any failure the read is out of
    bounds, and in every reachable state the read is in bounds exactly when
    a failure, always of kind 1, has been recorded. -/
theorem err_pointer_in_bounds_iff_failure (ops : List Op) (s' : BridgeState)
    (h : runOps ops initState = some s') :
    initState.current_error = SIZE_MAX ∧ err_pointer initState = none ∧
    (err_pointer s' ≠ none ↔ s'.current_error = 1) := by
  refine ⟨rfl, err_pointer_init, ?_, ?_⟩
  · intro hne
    rcases runOps_error ops initState s' h with he | he
    · exfalso
      apply hne
      rw [err_pointer, he]
      exact err_pointer_init
    · exact he
  · intro h1
    rw [err_pointer, h1]
    decide

/-- Witness for claim C9: the empty and the one-failure execution. -/
theorem err_pointer_in_bounds_iff_failure_witness :
    err_pointer initState = none ∧ BridgeState.current_error ⟨1⟩ = 1 := by
  have h := err_pointer_in_bounds_iff_failure [Op.opInitialize none 7] ⟨1⟩
    (by decide)
  exact ⟨h.2.1, h.2.2.mp (by decide)⟩

/-- Claim C10: in every state reachable by a defined sequence of bridge
    invocations from the initial state, the error slot holds either its
    initial value SIZE_MAX or the non-OK-status kind 1; no execution ever
    records the exception kind 0 or the null-pointer kind 2. -/
theorem error_slot_reachable_invariant (ops : List Op) (s' : BridgeState)
    (h : runOps ops initState = some s') :
    s'.current_error = SIZE_MAX ∨ s'.current_error = 1 := by
  rcases runOps_error ops initState s' h with he | he
  · exact Or.inl he
  · exact Or.inr he

/-- Witness for claim C10 at the empty execution. -/
theorem error_slot_reachable_invariant_witness :
    initState.current_error = SIZE_MAX ∨ initState.current_error = 1 :=
  error_slot_reachable_invariant [] initState rfl

end CGdiplus
